import Mathlib

/-!
Shallow embedding of the procedural ambient audio engine of
`src/frontend/js/audio.js` (class `WerewolfPolyphonicAudio`).

Modelling conventions:
- The mutable object state of the class is an explicit `AudioState` value;
  every method becomes a function `AudioState → AudioState`.
- `Math.random()` is modelled by an explicit stream `rand : ℕ → ℚ` together
  with a cursor `randIdx` in the state; each call to the JS global random
  generator reads `rand randIdx` and advances the cursor.
- The Web Audio output device is modelled by a trace: every constructed
  source node (oscillator or noise buffer), together with its envelope,
  scheduled stop time, low-pass filter and destination bus, is recorded as
  one `SoundEvent` appended to `trace`.  A `trace`-preserving call performs
  zero device calls.
- `setInterval` / `clearInterval` are modelled by a registry of
  `IntervalRec` records plus the recorded handles (`musicInterval`,
  `ambientIntervals`) that the class itself stores.  A registered interval
  with period `p` (milliseconds) created at time `t` fires at the times
  `t + k * p`, `k ≥ 1` (relation `Fires`); executing a fired callback is
  `runTick`.
- Durations and the device clock `now` (`audioContext.currentTime`) are in
  seconds, interval periods are in milliseconds, exactly as in the source.
- Machine floating point numbers are modelled by `ℚ`.
-/

set_option linter.unusedVariables false

namespace WerewolfAudio

/-- Oscillator waveform kinds (`osc.type` values used by the source). -/
inductive Waveform
  | sine
  | triangle
  | square
  | sawtooth
  deriving DecidableEq

/-- Gain-graph nodes: the three gain stages created by `initAudioContext`
plus the device destination (`audioContext.destination`). -/
inductive GNode
  | master
  | music
  | sfx
  | output
  deriving DecidableEq, BEq

/-- The four periodic callbacks the engine registers with `setInterval`:
the drone chord (`playDrone`), the melody tick (`playMelodyNote`), and the
two ambient triggers (wind and creak). -/
inductive TaskKind
  | drone
  | melody
  | wind
  | creak
  deriving DecidableEq

/-- Symbolic frequency of an oscillator.  `const hz` is a plain value in
hertz; `pitch octave semitone` denotes the melody formula
`baseFreq * 2 ^ octave * 2 ^ (semitone / 12)` of line 141 of the source,
kept symbolic because `2 ^ (semitone / 12)` is irrational. -/
inductive FreqExpr
  | const (hz : ℚ)
  | pitch (octave : ℕ) (semitone : ℕ)
  deriving DecidableEq

/-- A gain-automation ramp scheduled on a gain node:
`expTo target endTime` is `exponentialRampToValueAtTime`,
`linTo target endTime` is `linearRampToValueAtTime`. -/
inductive Ramp
  | expTo (target : ℚ) (endTime : ℚ)
  | linTo (target : ℚ) (endTime : ℚ)
  deriving DecidableEq

/-- The signal source of one synthesized voice: an oscillator, or a
noise buffer source with `sampleCount` generated samples and its `loop`
flag (never set by the source code, hence always `false`). -/
inductive SourceKind
  | oscillator (wave : Waveform) (freq : FreqExpr)
  | noiseBuffer (sampleCount : ℚ) (loop : Bool)
  deriving DecidableEq

/-- One device-level sound event: a source node with its envelope,
optional low-pass filter cutoff, optional frequency ramp
(`startHz` is set with `setValueAtTime`, the ramp with
`linearRampToValueAtTime`), scheduled stop time (`none` when no
`stop` is scheduled) and destination gain node. -/
structure SoundEvent where
  source : SourceKind
  onset : ℚ
  gainAtOnset : ℚ
  ramp : Ramp
  filterCutoff : Option ℚ
  freqRamp : Option (ℚ × ℚ)
  stopTime : Option ℚ
  dest : GNode
  deriving DecidableEq

/-- A periodic task registered with `setInterval`: its handle `id`, its
period in milliseconds, which callback it runs, and its registration
time. -/
structure IntervalRec where
  id : ℕ
  period : ℚ
  task : TaskKind
  createdAt : ℚ
  deriving DecidableEq

/-- The `this.config` object: the three volume fractions. -/
structure MixBusConfig where
  masterVolume : ℚ
  musicVolume : ℚ
  sfxVolume : ℚ
  deriving DecidableEq

/-- The `this.scales` object: the four named scales, each an ordered list
of semitone offsets. -/
structure Scales where
  minor : List ℕ
  phrygian : List ℕ
  locrian : List ℕ
  harmonicMinor : List ℕ
  deriving DecidableEq

/-- The scale table of the constructor (lines 20-25 of the source). -/
def scales : Scales where
  minor := [0, 2, 3, 5, 7, 8, 10]
  phrygian := [0, 1, 3, 5, 7, 8, 10]
  locrian := [0, 1, 3, 5, 6, 8, 10]
  harmonicMinor := [0, 2, 3, 5, 7, 8, 11]

/-- `this.baseFreq` (D2, line 28 of the source). -/
def baseFreq : ℚ := 73.42

/-- The whole engine state: the fields of the `WerewolfPolyphonicAudio`
object, the local melodic cursor `lastNoteIndex` of the `startMelody`
closure, the gain-graph data built at initialization, the timer registry,
the random-stream cursor and the device-call trace. -/
structure AudioState where
  audioContext : Bool
  sampleRate : ℚ
  now : ℚ
  masterVal : ℚ
  musicVal : ℚ
  sfxVal : ℚ
  connections : List (GNode × GNode)
  config : MixBusConfig
  isEnabled : Bool
  isMusicPlaying : Bool
  musicInterval : Option ℕ
  ambientIntervals : List ℕ
  lastNoteIndex : ℕ
  registry : List IntervalRec
  nextId : ℕ
  randIdx : ℕ
  trace : List SoundEvent
  deriving DecidableEq

/-- The state built by the constructor (lines 2-30): no audio context yet,
default volume configuration, music not playing, no handles recorded. -/
def initialState : AudioState where
  audioContext := false
  sampleRate := 0
  now := 0
  masterVal := 0
  musicVal := 0
  sfxVal := 0
  connections := []
  config := { masterVolume := 0.4, musicVolume := 0.15, sfxVolume := 0.3 }
  isEnabled := true
  isMusicPlaying := false
  musicInterval := none
  ambientIntervals := []
  lastNoteIndex := 0
  registry := []
  nextId := 0
  randIdx := 0
  trace := []

/-- One `Math.random()` call: read the stream at the cursor and advance. -/
def drawRand (rand : ℕ → ℚ) (s : AudioState) : ℚ × AudioState :=
  (rand s.randIdx, { s with randIdx := s.randIdx + 1 })

/-- `setInterval(callback, period)`: register a periodic task and return
its fresh handle. -/
def setIntervalReg (task : TaskKind) (period : ℚ) (s : AudioState) :
    ℕ × AudioState :=
  (s.nextId,
    { s with
      registry := s.registry ++ [⟨s.nextId, period, task, s.now⟩]
      nextId := s.nextId + 1 })

/-- `clearInterval(id)`: remove the task with that handle from the
registry. -/
def clearIntervalReg (id : ℕ) (s : AudioState) : AudioState :=
  { s with registry := s.registry.filter (fun r => r.id != id) }

/-- Append one device-level sound event to the trace. -/
def pushEvent (ev : SoundEvent) (s : AudioState) : AudioState :=
  { s with trace := s.trace ++ [ev] }

/-- `playNote(freq, duration, type, volume, destination)` (lines 180-197):
guarded on the audio context; creates an oscillator and a gain node, sets
the gain to `volume` at the current time, ramps it exponentially to 0.001
at current time + duration, connects to `destination || masterGain`, and
schedules the oscillator stop at current time + duration. -/
def playNote (s : AudioState) (freq : FreqExpr) (duration : ℚ)
    (wave : Waveform) (volume : ℚ) (dst : Option GNode) : AudioState :=
  if s.audioContext = false then s else
  pushEvent
    { source := .oscillator wave freq
      onset := s.now
      gainAtOnset := volume
      ramp := .expTo 0.001 (s.now + duration)
      filterCutoff := none
      freqRamp := none
      stopTime := some (s.now + duration)
      dest := dst.getD .master } s

/-- `playFilteredNoise(duration, cutoff, volume, destination)`
(lines 199-226): guarded on the audio context; fills a buffer of
`sampleRate * duration` samples with `Math.random() * 2 - 1` (the loop
consumes one random draw per sample, hence the cursor advances by the
iteration count of `i < bufferSize`), routes a non-looping buffer source
through a low-pass filter at `cutoff` and a gain node ramping linearly
from `volume` to 0 over the duration, and schedules no stop. -/
def playFilteredNoise (s : AudioState) (duration cutoff volume : ℚ)
    (dst : Option GNode) : AudioState :=
  if s.audioContext = false then s else
  let bufferSize := s.sampleRate * duration
  let s := { s with randIdx := s.randIdx + (Int.ceil bufferSize).toNat }
  pushEvent
    { source := .noiseBuffer bufferSize false
      onset := s.now
      gainAtOnset := volume
      ramp := .linTo 0 (s.now + duration)
      filterCutoff := some cutoff
      freqRamp := none
      stopTime := none
      dest := dst.getD .master } s

/-- `playCreak()` (lines 228-241): a 0.3 s sawtooth one-shot whose
frequency starts at `100 + random * 50` and ramps linearly to
`60 + random * 30`, gain 0.03 decaying exponentially to 0.001, routed to
the music bus, stop scheduled at current time + 0.3. -/
def playCreak (rand : ℕ → ℚ) (s : AudioState) : AudioState :=
  if s.audioContext = false then s else
  let (r0, s) := drawRand rand s
  let (r1, s) := drawRand rand s
  pushEvent
    { source := .oscillator .sawtooth (.const (100 + r0 * 50))
      onset := s.now
      gainAtOnset := 0.03
      ramp := .expTo 0.001 (s.now + 0.3)
      filterCutoff := none
      freqRamp := some (60 + r1 * 30, s.now + 0.3)
      stopTime := some (s.now + 0.3)
      dest := .music } s

/-- `playWind(duration)` (lines 243-245). -/
def playWind (s : AudioState) (duration : ℚ) : AudioState :=
  playFilteredNoise s duration 300 0.05 (some .music)

/-- `playHover()` (line 247). -/
def playHover (s : AudioState) : AudioState :=
  playNote s (.const 880) 0.03 .square 0.02 (some .sfx)

/-- `playClick()` (line 248). -/
def playClick (s : AudioState) : AudioState :=
  playNote s (.const 440) 0.05 .square 0.05 (some .sfx)

/-- The melodic cursor update of line 137:
`Math.max(0, Math.min(scale.length - 1, lastNoteIndex + direction * step))`. -/
def advanceCursor (len : ℕ) (idx : ℕ) (direction : ℤ) (step : ℕ) : ℕ :=
  (max 0 (min ((len : ℤ) - 1) ((idx : ℤ) + direction * (step : ℤ)))).toNat

/-- The `playMelodyNote` closure of `startMelody` (lines 131-153): guarded
on `isMusicPlaying`; draws direction (`random > 0.5 ? 1 : -1`) and step
(`floor(random * 3)`), advances the clamped cursor over the phrygian
scale, draws the octave (`2 + floor(random * 2)`) and the duration
(`2 + random * 2`), plays the main triangle note at gain 0.03 on the music
bus, then with gate `random > 0.6` plays a harmony note at scale degree
`(cursor + 2) % scale.length` (modulo, not clamp), 1.5 s, sine,
gain 0.02, music bus. -/
def playMelodyNote (rand : ℕ → ℚ) (s : AudioState) : AudioState :=
  if s.isMusicPlaying = false then s else
  let (r0, s) := drawRand rand s
  let direction : ℤ := if 0.5 < r0 then 1 else -1
  let (r1, s) := drawRand rand s
  let step : ℕ := (Int.floor (r1 * 3)).toNat
  let scale := scales.phrygian
  let idx := advanceCursor scale.length s.lastNoteIndex direction step
  let s := { s with lastNoteIndex := idx }
  let semitone := scale.getD idx 0
  let (r2, s) := drawRand rand s
  let octave : ℕ := 2 + (Int.floor (r2 * 2)).toNat
  let (r3, s) := drawRand rand s
  let s := playNote s (.pitch octave semitone) (2 + r3 * 2) .triangle 0.03
    (some .music)
  let (r4, s) := drawRand rand s
  if 0.6 < r4 then
    let harmonyIndex := (idx + 2) % scale.length
    let harmonySemitone := scale.getD harmonyIndex 0
    playNote s (.pitch octave harmonySemitone) 1.5 .sine 0.02 (some .music)
  else s

/-- The `playDrone` closure of `startDrone` (lines 109-119): fundamental,
perfect fifth, octave, and one 8 s / 100 Hz filtered-noise layer, all on
the music bus. -/
def playDrone (s : AudioState) : AudioState :=
  let s := playNote s (.const baseFreq) 8 .sine 0.04 (some .music)
  let s := playNote s (.const (baseFreq * 1.5)) 8 .sine 0.025 (some .music)
  let s := playNote s (.const (baseFreq * 2)) 8 .triangle 0.015 (some .music)
  playFilteredNoise s 8 100 0.02 (some .music)

/-- `startDrone()` (lines 105-123): play one drone chord immediately,
then register the 7500 ms drone interval and record its handle in
`ambientIntervals`. -/
def startDrone (s : AudioState) : AudioState :=
  if s.audioContext = false then s else
  let s := playDrone s
  let (id, s) := setIntervalReg .drone 7500 s
  { s with ambientIntervals := s.ambientIntervals ++ [id] }

/-- `startMelody()` (lines 125-156): reset the closure cursor to 0 and
register the melody interval with a period of `3000 + random * 4000`
milliseconds drawn once, recording the handle in `musicInterval`. -/
def startMelody (rand : ℕ → ℚ) (s : AudioState) : AudioState :=
  if s.audioContext = false then s else
  let s := { s with lastNoteIndex := 0 }
  let (r, s) := drawRand rand s
  let (id, s) := setIntervalReg .melody (3000 + r * 4000) s
  { s with musicInterval := some id }

/-- The wind interval callback (lines 162-166): `Math.random() > 0.7 &&
isMusicPlaying` gates a `playWind(4 + random * 3)`; the gate random is
drawn first, the duration random only when the gate passes. -/
def windTick (rand : ℕ → ℚ) (s : AudioState) : AudioState :=
  let (r0, s) := drawRand rand s
  if 0.7 < r0 ∧ s.isMusicPlaying = true then
    let (r1, s) := drawRand rand s
    playWind s (4 + r1 * 3)
  else s

/-- The creak interval callback (lines 170-174): `Math.random() > 0.8 &&
isMusicPlaying` gates a `playCreak()`. -/
def creakTick (rand : ℕ → ℚ) (s : AudioState) : AudioState :=
  let (r0, s) := drawRand rand s
  if 0.8 < r0 ∧ s.isMusicPlaying = true then playCreak rand s
  else s

/-- `startAmbientEffects()` (lines 158-176): register the 8000 ms wind
interval and the 12000 ms creak interval, recording both handles in
`ambientIntervals`. -/
def startAmbientEffects (s : AudioState) : AudioState :=
  if s.audioContext = false then s else
  let (windId, s) := setIntervalReg .wind 8000 s
  let s := { s with ambientIntervals := s.ambientIntervals ++ [windId] }
  let (creakId, s) := setIntervalReg .creak 12000 s
  { s with ambientIntervals := s.ambientIntervals ++ [creakId] }

/-- `startBackgroundMusic()` (lines 74-88): no-op while already playing or
without an audio context; otherwise set the flag and start the drone, the
melody and the ambient effects. -/
def startBackgroundMusic (rand : ℕ → ℚ) (s : AudioState) : AudioState :=
  if s.isMusicPlaying = true ∨ s.audioContext = false then s else
  let s := { s with isMusicPlaying := true }
  let s := startDrone s
  let s := startMelody rand s
  startAmbientEffects s

/-- `stopBackgroundMusic()` (lines 90-103): clear the playing flag, cancel
every interval recorded in `ambientIntervals` and reset the list, then
cancel and reset `musicInterval` when present. -/
def stopBackgroundMusic (s : AudioState) : AudioState :=
  let s := { s with isMusicPlaying := false }
  let s2 := s.ambientIntervals.foldl (fun st i => clearIntervalReg i st) s
  let s3 := { s2 with ambientIntervals := [] }
  match s3.musicInterval with
  | some id => { clearIntervalReg id s3 with musicInterval := none }
  | none => s3

/-- `initAudioContext()` (lines 39-68): no-op when a context already
exists; otherwise try to construct the output device (`deviceOk` models
whether the constructor succeeds — on failure the `catch` absorbs the
error and nothing changes), build the three-stage gain chain
(`masterGain → destination`, `musicGain → masterGain`,
`sfxGain → masterGain`) with the configured volumes, and auto-start the
background music. -/
def initAudioContext (deviceOk : Bool) (sr : ℚ) (rand : ℕ → ℚ)
    (s : AudioState) : AudioState :=
  if s.audioContext = true then s else
  if deviceOk = false then s else
  let s :=
    { s with
      audioContext := true
      sampleRate := sr
      masterVal := s.config.masterVolume
      musicVal := s.config.musicVolume
      sfxVal := s.config.sfxVolume
      connections := s.connections ++
        [(GNode.master, GNode.output), (GNode.music, GNode.master),
          (GNode.sfx, GNode.master)] }
  startBackgroundMusic rand s

/-- Execute the callback of one periodic task at time `t` (the scheduler
sets the clock, then runs the callback registered by the corresponding
`setInterval` call). -/
def runTick (rand : ℕ → ℚ) (task : TaskKind) (t : ℚ) (s : AudioState) :
    AudioState :=
  let s := { s with now := t }
  match task with
  | .drone => playDrone s
  | .melody => playMelodyNote rand s
  | .wind => windTick rand s
  | .creak => creakTick rand s

/-- Timer semantics: a registered interval `r` fires at every time
`createdAt + k * period` for `k ≥ 1` while it stays in the registry; a
callback (and hence any synthesis it performs) runs at `t` only when some
registered interval fires at `t`. -/
def Fires (s : AudioState) (r : IntervalRec) (t : ℚ) : Prop :=
  r ∈ s.registry ∧ ∃ k : ℕ, 1 ≤ k ∧ t = r.createdAt + k * r.period

/-- The recorded handles cover the registry: every registered periodic
task is accounted for either in `ambientIntervals` or in `musicInterval`
(the handle-set invariant of the spec). -/
def HandlesCover (s : AudioState) : Prop :=
  ∀ r ∈ s.registry, r.id ∈ s.ambientIntervals ∨ s.musicInterval = some r.id

/-- The gain value of a graph node; the device destination applies no gain
of its own. -/
def gainValOf (s : AudioState) : GNode → ℚ
  | .master => s.masterVal
  | .music => s.musicVal
  | .sfx => s.sfxVal
  | .output => 1

/-- The accumulated gain along the connection chain from a node to the
output: each gain node multiplies the signal by its gain value and passes
it to the node it is connected to; an unconnected node contributes
nothing. `fuel` bounds the chain length. -/
def chainGain (s : AudioState) : ℕ → GNode → ℚ
  | _, .output => 1
  | 0, _ => 0
  | fuel + 1, n =>
    match s.connections.lookup n with
    | some m => gainValOf s n * chainGain s fuel m
    | none => 0

/-- The effective output gain of a voice with per-event peak gain
`peakGain` routed to destination node `n`. -/
def effectiveOutputGain (s : AudioState) (peakGain : ℚ) (n : GNode) : ℚ :=
  peakGain * chainGain s 4 n

instance (s : AudioState) : Decidable (HandlesCover s) :=
  inferInstanceAs (Decidable (∀ r ∈ s.registry,
    r.id ∈ s.ambientIntervals ∨ s.musicInterval = some r.id))

section PreservationLemmas

variable (s : AudioState) (rand : ℕ → ℚ) (ev : SoundEvent) (f : FreqExpr)
variable (d c v : ℚ) (w : Waveform) (dst : Option GNode)

@[simp] theorem pushEvent_trace : (pushEvent ev s).trace = s.trace ++ [ev] :=
  rfl

theorem playNote_audioContext :
    (playNote s f d w v dst).audioContext = s.audioContext := by
  simp only [playNote]; split <;> rfl

theorem playNote_isMusicPlaying :
    (playNote s f d w v dst).isMusicPlaying = s.isMusicPlaying := by
  simp only [playNote]; split <;> rfl

theorem playNote_registry :
    (playNote s f d w v dst).registry = s.registry := by
  simp only [playNote]; split <;> rfl

theorem playNote_musicInterval :
    (playNote s f d w v dst).musicInterval = s.musicInterval := by
  simp only [playNote]; split <;> rfl

theorem playNote_ambientIntervals :
    (playNote s f d w v dst).ambientIntervals = s.ambientIntervals := by
  simp only [playNote]; split <;> rfl

theorem playNote_connections :
    (playNote s f d w v dst).connections = s.connections := by
  simp only [playNote]; split <;> rfl

theorem playNote_masterVal :
    (playNote s f d w v dst).masterVal = s.masterVal := by
  simp only [playNote]; split <;> rfl

theorem playNote_musicVal :
    (playNote s f d w v dst).musicVal = s.musicVal := by
  simp only [playNote]; split <;> rfl

theorem playNote_sfxVal :
    (playNote s f d w v dst).sfxVal = s.sfxVal := by
  simp only [playNote]; split <;> rfl

theorem playNote_lastNoteIndex :
    (playNote s f d w v dst).lastNoteIndex = s.lastNoteIndex := by
  simp only [playNote]; split <;> rfl

theorem playNote_nextId :
    (playNote s f d w v dst).nextId = s.nextId := by
  simp only [playNote]; split <;> rfl

theorem playNote_now : (playNote s f d w v dst).now = s.now := by
  simp only [playNote]; split <;> rfl

theorem playNote_randIdx :
    (playNote s f d w v dst).randIdx = s.randIdx := by
  simp only [playNote]; split <;> rfl

theorem playFilteredNoise_audioContext :
    (playFilteredNoise s d c v dst).audioContext = s.audioContext := by
  simp only [playFilteredNoise]; split <;> rfl

theorem playFilteredNoise_isMusicPlaying :
    (playFilteredNoise s d c v dst).isMusicPlaying = s.isMusicPlaying := by
  simp only [playFilteredNoise]; split <;> rfl

theorem playFilteredNoise_registry :
    (playFilteredNoise s d c v dst).registry = s.registry := by
  simp only [playFilteredNoise]; split <;> rfl

theorem playFilteredNoise_musicInterval :
    (playFilteredNoise s d c v dst).musicInterval = s.musicInterval := by
  simp only [playFilteredNoise]; split <;> rfl

theorem playFilteredNoise_ambientIntervals :
    (playFilteredNoise s d c v dst).ambientIntervals =
      s.ambientIntervals := by
  simp only [playFilteredNoise]; split <;> rfl

theorem playFilteredNoise_connections :
    (playFilteredNoise s d c v dst).connections = s.connections := by
  simp only [playFilteredNoise]; split <;> rfl

theorem playFilteredNoise_masterVal :
    (playFilteredNoise s d c v dst).masterVal = s.masterVal := by
  simp only [playFilteredNoise]; split <;> rfl

theorem playFilteredNoise_musicVal :
    (playFilteredNoise s d c v dst).musicVal = s.musicVal := by
  simp only [playFilteredNoise]; split <;> rfl

theorem playFilteredNoise_sfxVal :
    (playFilteredNoise s d c v dst).sfxVal = s.sfxVal := by
  simp only [playFilteredNoise]; split <;> rfl

theorem playFilteredNoise_lastNoteIndex :
    (playFilteredNoise s d c v dst).lastNoteIndex = s.lastNoteIndex := by
  simp only [playFilteredNoise]; split <;> rfl

theorem playFilteredNoise_nextId :
    (playFilteredNoise s d c v dst).nextId = s.nextId := by
  simp only [playFilteredNoise]; split <;> rfl

theorem playFilteredNoise_now :
    (playFilteredNoise s d c v dst).now = s.now := by
  simp only [playFilteredNoise]; split <;> rfl

theorem playCreak_registry : (playCreak rand s).registry = s.registry := by
  simp only [playCreak, drawRand]; split <;> rfl

theorem playCreak_isMusicPlaying :
    (playCreak rand s).isMusicPlaying = s.isMusicPlaying := by
  simp only [playCreak, drawRand]; split <;> rfl

end PreservationLemmas

section CompoundLemmas

variable (s : AudioState) (rand : ℕ → ℚ)

theorem playDrone_isMusicPlaying :
    (playDrone s).isMusicPlaying = s.isMusicPlaying := by
  simp only [playDrone, playFilteredNoise_isMusicPlaying,
    playNote_isMusicPlaying]

theorem playDrone_audioContext :
    (playDrone s).audioContext = s.audioContext := by
  simp only [playDrone, playFilteredNoise_audioContext,
    playNote_audioContext]

theorem playDrone_registry : (playDrone s).registry = s.registry := by
  simp only [playDrone, playFilteredNoise_registry, playNote_registry]

theorem playDrone_connections :
    (playDrone s).connections = s.connections := by
  simp only [playDrone, playFilteredNoise_connections,
    playNote_connections]

theorem playDrone_masterVal : (playDrone s).masterVal = s.masterVal := by
  simp only [playDrone, playFilteredNoise_masterVal, playNote_masterVal]

theorem playDrone_musicVal : (playDrone s).musicVal = s.musicVal := by
  simp only [playDrone, playFilteredNoise_musicVal, playNote_musicVal]

theorem playDrone_sfxVal : (playDrone s).sfxVal = s.sfxVal := by
  simp only [playDrone, playFilteredNoise_sfxVal, playNote_sfxVal]

theorem playDrone_lastNoteIndex :
    (playDrone s).lastNoteIndex = s.lastNoteIndex := by
  simp only [playDrone, playFilteredNoise_lastNoteIndex,
    playNote_lastNoteIndex]

theorem startDrone_isMusicPlaying :
    (startDrone s).isMusicPlaying = s.isMusicPlaying := by
  simp only [startDrone, setIntervalReg]
  split
  · rfl
  · simp only [playDrone_isMusicPlaying]

theorem startDrone_audioContext :
    (startDrone s).audioContext = s.audioContext := by
  simp only [startDrone, setIntervalReg]
  split
  · rfl
  · simp only [playDrone_audioContext]

theorem startDrone_connections :
    (startDrone s).connections = s.connections := by
  simp only [startDrone, setIntervalReg]
  split
  · rfl
  · simp only [playDrone_connections]

theorem startDrone_masterVal :
    (startDrone s).masterVal = s.masterVal := by
  simp only [startDrone, setIntervalReg]
  split
  · rfl
  · simp only [playDrone_masterVal]

theorem startDrone_musicVal : (startDrone s).musicVal = s.musicVal := by
  simp only [startDrone, setIntervalReg]
  split
  · rfl
  · simp only [playDrone_musicVal]

theorem startDrone_sfxVal : (startDrone s).sfxVal = s.sfxVal := by
  simp only [startDrone, setIntervalReg]
  split
  · rfl
  · simp only [playDrone_sfxVal]

theorem startMelody_isMusicPlaying :
    (startMelody rand s).isMusicPlaying = s.isMusicPlaying := by
  simp only [startMelody, setIntervalReg, drawRand]
  split <;> rfl

theorem startMelody_audioContext :
    (startMelody rand s).audioContext = s.audioContext := by
  simp only [startMelody, setIntervalReg, drawRand]
  split <;> rfl

theorem startMelody_connections :
    (startMelody rand s).connections = s.connections := by
  simp only [startMelody, setIntervalReg, drawRand]
  split <;> rfl

theorem startMelody_masterVal :
    (startMelody rand s).masterVal = s.masterVal := by
  simp only [startMelody, setIntervalReg, drawRand]
  split <;> rfl

theorem startMelody_musicVal :
    (startMelody rand s).musicVal = s.musicVal := by
  simp only [startMelody, setIntervalReg, drawRand]
  split <;> rfl

theorem startMelody_sfxVal :
    (startMelody rand s).sfxVal = s.sfxVal := by
  simp only [startMelody, setIntervalReg, drawRand]
  split <;> rfl

theorem startAmbientEffects_isMusicPlaying :
    (startAmbientEffects s).isMusicPlaying = s.isMusicPlaying := by
  simp only [startAmbientEffects, setIntervalReg]
  split <;> rfl

theorem startAmbientEffects_audioContext :
    (startAmbientEffects s).audioContext = s.audioContext := by
  simp only [startAmbientEffects, setIntervalReg]
  split <;> rfl

theorem startAmbientEffects_connections :
    (startAmbientEffects s).connections = s.connections := by
  simp only [startAmbientEffects, setIntervalReg]
  split <;> rfl

theorem startAmbientEffects_masterVal :
    (startAmbientEffects s).masterVal = s.masterVal := by
  simp only [startAmbientEffects, setIntervalReg]
  split <;> rfl

theorem startAmbientEffects_musicVal :
    (startAmbientEffects s).musicVal = s.musicVal := by
  simp only [startAmbientEffects, setIntervalReg]
  split <;> rfl

theorem startAmbientEffects_sfxVal :
    (startAmbientEffects s).sfxVal = s.sfxVal := by
  simp only [startAmbientEffects, setIntervalReg]
  split <;> rfl

theorem startBackgroundMusic_isMusicPlaying_of_started
    (h1 : s.isMusicPlaying = false) (h2 : s.audioContext = true) :
    (startBackgroundMusic rand s).isMusicPlaying = true := by
  have hg : ¬ (s.isMusicPlaying = true ∨ s.audioContext = false) := by
    simp [h1, h2]
  unfold startBackgroundMusic
  rw [if_neg hg, startAmbientEffects_isMusicPlaying,
    startMelody_isMusicPlaying, startDrone_isMusicPlaying]

theorem startBackgroundMusic_connections :
    (startBackgroundMusic rand s).connections = s.connections := by
  simp only [startBackgroundMusic]
  split
  · rfl
  · simp only [startAmbientEffects_connections, startMelody_connections,
      startDrone_connections]

theorem startBackgroundMusic_masterVal :
    (startBackgroundMusic rand s).masterVal = s.masterVal := by
  simp only [startBackgroundMusic]
  split
  · rfl
  · simp only [startAmbientEffects_masterVal, startMelody_masterVal,
      startDrone_masterVal]

theorem startBackgroundMusic_musicVal :
    (startBackgroundMusic rand s).musicVal = s.musicVal := by
  simp only [startBackgroundMusic]
  split
  · rfl
  · simp only [startAmbientEffects_musicVal, startMelody_musicVal,
      startDrone_musicVal]

theorem startBackgroundMusic_sfxVal :
    (startBackgroundMusic rand s).sfxVal = s.sfxVal := by
  simp only [startBackgroundMusic]
  split
  · rfl
  · simp only [startAmbientEffects_sfxVal, startMelody_sfxVal,
      startDrone_sfxVal]

set_option maxHeartbeats 1000000 in
theorem playMelodyNote_registry :
    (playMelodyNote rand s).registry = s.registry := by
  simp only [playMelodyNote, drawRand]
  split
  · rfl
  all_goals repeat' split
  all_goals simp only [playNote_registry]

theorem windTick_registry : (windTick rand s).registry = s.registry := by
  simp only [windTick, drawRand, playWind]
  split
  · simp only [playFilteredNoise_registry]
  · rfl

theorem creakTick_registry : (creakTick rand s).registry = s.registry := by
  simp only [creakTick, drawRand]
  split
  · simp only [playCreak_registry]
  · rfl

theorem runTick_registry (task : TaskKind) (t : ℚ) :
    (runTick rand task t s).registry = s.registry := by
  cases task <;>
    simp only [runTick, playDrone_registry, playMelodyNote_registry,
      windTick_registry, creakTick_registry]

theorem clearIntervalReg_registry (id : ℕ) :
    (clearIntervalReg id s).registry =
      s.registry.filter (fun r => r.id != id) := rfl

theorem clearIntervalReg_musicInterval (id : ℕ) :
    (clearIntervalReg id s).musicInterval = s.musicInterval := rfl

theorem clearIntervalReg_trace (id : ℕ) :
    (clearIntervalReg id s).trace = s.trace := rfl

theorem clearIntervalReg_isMusicPlaying (id : ℕ) :
    (clearIntervalReg id s).isMusicPlaying = s.isMusicPlaying := rfl

theorem clearIntervalReg_audioContext (id : ℕ) :
    (clearIntervalReg id s).audioContext = s.audioContext := rfl

theorem clearIntervalReg_ambientIntervals (id : ℕ) :
    (clearIntervalReg id s).ambientIntervals = s.ambientIntervals := rfl

theorem clearAll_registry_mem (L : List ℕ) (r : IntervalRec) :
    r ∈ (L.foldl (fun st i => clearIntervalReg i st) s).registry ↔
      r ∈ s.registry ∧ ∀ i ∈ L, r.id ≠ i := by
  induction L generalizing s with
  | nil => simp
  | cons a L ih =>
    rw [List.foldl_cons, ih]
    simp only [clearIntervalReg_registry, List.mem_filter, List.mem_cons,
      bne_iff_ne, ne_eq]
    constructor
    · rintro ⟨⟨hr, hne⟩, hall⟩
      refine ⟨hr, ?_⟩
      rintro i (rfl | hi)
      · exact hne
      · exact hall i hi
    · rintro ⟨hr, hall⟩
      exact ⟨⟨hr, hall a (Or.inl rfl)⟩, fun i hi => hall i (Or.inr hi)⟩

theorem clearAll_musicInterval (L : List ℕ) :
    (L.foldl (fun st i => clearIntervalReg i st) s).musicInterval =
      s.musicInterval := by
  induction L generalizing s with
  | nil => rfl
  | cons a L ih =>
    rw [List.foldl_cons, ih]
    rfl

theorem clearAll_isMusicPlaying (L : List ℕ) :
    (L.foldl (fun st i => clearIntervalReg i st) s).isMusicPlaying =
      s.isMusicPlaying := by
  induction L generalizing s with
  | nil => rfl
  | cons a L ih =>
    rw [List.foldl_cons, ih]
    rfl

theorem clearAll_trace (L : List ℕ) :
    (L.foldl (fun st i => clearIntervalReg i st) s).trace = s.trace := by
  induction L generalizing s with
  | nil => rfl
  | cons a L ih =>
    rw [List.foldl_cons, ih]
    rfl

theorem clearAll_audioContext (L : List ℕ) :
    (L.foldl (fun st i => clearIntervalReg i st) s).audioContext =
      s.audioContext := by
  induction L generalizing s with
  | nil => rfl
  | cons a L ih =>
    rw [List.foldl_cons, ih]
    rfl

theorem stopBackgroundMusic_trace :
    (stopBackgroundMusic s).trace = s.trace := by
  unfold stopBackgroundMusic
  cases hmi : (List.foldl (fun st i => clearIntervalReg i st)
      ({ s with isMusicPlaying := false }) s.ambientIntervals).musicInterval
  · simp only [hmi]
    simp only [clearAll_trace]
  · simp only [hmi]
    simp only [clearIntervalReg_trace, clearAll_trace]

theorem stopBackgroundMusic_isMusicPlaying :
    (stopBackgroundMusic s).isMusicPlaying = false := by
  unfold stopBackgroundMusic
  cases hmi : (List.foldl (fun st i => clearIntervalReg i st)
      ({ s with isMusicPlaying := false }) s.ambientIntervals).musicInterval
  · simp only [hmi]
    simp only [clearAll_isMusicPlaying]
  · simp only [hmi]
    simp only [clearIntervalReg_isMusicPlaying, clearAll_isMusicPlaying]

theorem stopBackgroundMusic_ambientIntervals :
    (stopBackgroundMusic s).ambientIntervals = [] := by
  unfold stopBackgroundMusic
  cases hmi : (List.foldl (fun st i => clearIntervalReg i st)
      ({ s with isMusicPlaying := false }) s.ambientIntervals).musicInterval
  · simp only [hmi]
  · simp only [hmi]
    simp only [clearIntervalReg_ambientIntervals]

theorem stopBackgroundMusic_musicInterval :
    (stopBackgroundMusic s).musicInterval = none := by
  unfold stopBackgroundMusic
  cases hmi : (List.foldl (fun st i => clearIntervalReg i st)
      ({ s with isMusicPlaying := false }) s.ambientIntervals).musicInterval
  · simp only [hmi]
  · simp only [hmi]

theorem stopBackgroundMusic_audioContext :
    (stopBackgroundMusic s).audioContext = s.audioContext := by
  unfold stopBackgroundMusic
  cases hmi : (List.foldl (fun st i => clearIntervalReg i st)
      ({ s with isMusicPlaying := false }) s.ambientIntervals).musicInterval
  · simp only [hmi]
    simp only [clearAll_audioContext]
  · simp only [hmi]
    simp only [clearIntervalReg_audioContext, clearAll_audioContext]

theorem stopBackgroundMusic_registry_empty (h : HandlesCover s) :
    (stopBackgroundMusic s).registry = [] := by
  rw [List.eq_nil_iff_forall_not_mem]
  intro r hr
  unfold stopBackgroundMusic at hr
  revert hr
  cases hmi : (List.foldl (fun st i => clearIntervalReg i st)
      ({ s with isMusicPlaying := false }) s.ambientIntervals).musicInterval with
  | none =>
    simp only [hmi]
    intro hr
    rw [clearAll_registry_mem] at hr
    obtain ⟨hr1, hr2⟩ := hr
    rcases h r hr1 with hamb | hmus
    · exact hr2 r.id hamb rfl
    · rw [clearAll_musicInterval] at hmi
      simp only [hmus] at hmi
      exact Option.noConfusion hmi
  | some id =>
    simp only [hmi]
    intro hr
    simp only [clearIntervalReg_registry] at hr
    rw [List.mem_filter] at hr
    obtain ⟨hr', hne⟩ := hr
    rw [clearAll_registry_mem] at hr'
    obtain ⟨hr1, hr2⟩ := hr'
    rcases h r hr1 with hamb | hmus
    · exact hr2 r.id hamb rfl
    · rw [clearAll_musicInterval] at hmi
      rw [hmus] at hmi
      obtain rfl : id = r.id := by
        injection hmi with h2
        exact h2.symm
      simp at hne

theorem startBackgroundMusic_of_guard
    (h : s.isMusicPlaying = true ∨ s.audioContext = false) :
    startBackgroundMusic rand s = s := by
  unfold startBackgroundMusic
  rw [if_pos h]

theorem playNote_trace_ok (f : FreqExpr) (d v : ℚ) (w : Waveform)
    (dst : Option GNode) (h : s.audioContext = true) :
    (playNote s f d w v dst).trace = s.trace ++
      [{ source := .oscillator w f
         onset := s.now
         gainAtOnset := v
         ramp := .expTo 0.001 (s.now + d)
         filterCutoff := none
         freqRamp := none
         stopTime := some (s.now + d)
         dest := dst.getD .master }] := by
  simp [playNote, h]

theorem initAudioContext_ok_fields (sr : ℚ)
    (h : s.audioContext = false) :
    (initAudioContext true sr rand s).connections = s.connections ++
      [(GNode.master, GNode.output), (GNode.music, GNode.master),
        (GNode.sfx, GNode.master)] ∧
    (initAudioContext true sr rand s).masterVal = s.config.masterVolume ∧
    (initAudioContext true sr rand s).musicVal = s.config.musicVolume ∧
    (initAudioContext true sr rand s).sfxVal = s.config.sfxVolume := by
  have hg : ¬ (s.audioContext = true) := by simp [h]
  refine ⟨?_, ?_, ?_, ?_⟩ <;>
    (unfold initAudioContext
     rw [if_neg hg, if_neg (by simp)]) <;>
    first
    | rw [startBackgroundMusic_connections]
    | rw [startBackgroundMusic_masterVal]
    | rw [startBackgroundMusic_musicVal]
    | rw [startBackgroundMusic_sfxVal]

theorem chainGain_of_std_connections
    (h : s.connections =
      [(GNode.master, GNode.output), (GNode.music, GNode.master),
        (GNode.sfx, GNode.master)]) :
    chainGain s 4 .music = s.musicVal * (s.masterVal * 1) ∧
    chainGain s 4 .sfx = s.sfxVal * (s.masterVal * 1) := by
  have l1 : List.lookup GNode.music
      [(GNode.master, GNode.output), (GNode.music, GNode.master),
        (GNode.sfx, GNode.master)] = some GNode.master := rfl
  have l2 : List.lookup GNode.sfx
      [(GNode.master, GNode.output), (GNode.music, GNode.master),
        (GNode.sfx, GNode.master)] = some GNode.master := rfl
  have l3 : List.lookup GNode.master
      [(GNode.master, GNode.output), (GNode.music, GNode.master),
        (GNode.sfx, GNode.master)] = some GNode.output := rfl
  constructor <;> simp only [chainGain, h, gainValOf, l1, l2, l3]

end CompoundLemmas

/-- C1: after `stopBackgroundMusic` returns, the `musicPlaying` flag is
cleared, every recorded periodic-task handle (`musicInterval` and every
entry of `ambientIntervals`) has been cancelled and the recorded handle
set is empty; given that the recorded handles cover the timer registry
(the handle-set invariant), the registry itself is left empty, so no
interval ever fires again at any later time — zero further synthesis
calls originate from the drone, melody, wind or creak generators. -/
theorem C1_stop_silences_generators (s : AudioState) (h : HandlesCover s) :
    (stopBackgroundMusic s).isMusicPlaying = false ∧
    (stopBackgroundMusic s).ambientIntervals = [] ∧
    (stopBackgroundMusic s).musicInterval = none ∧
    (stopBackgroundMusic s).registry = [] ∧
    (∀ r t, ¬ Fires (stopBackgroundMusic s) r t) :=
  ⟨stopBackgroundMusic_isMusicPlaying s,
   stopBackgroundMusic_ambientIntervals s,
   stopBackgroundMusic_musicInterval s,
   stopBackgroundMusic_registry_empty s h,
   fun r t hf => by
     rcases hf with ⟨hr, _⟩
     rw [stopBackgroundMusic_registry_empty s h] at hr
     exact absurd hr (List.not_mem_nil r)⟩

/-- C1 witness: the state reached by a successful initialization (which
auto-starts the music) satisfies the handle-cover invariant, and stopping
from it empties the registry. -/
theorem C1_stop_silences_generators_witness :
    HandlesCover (initAudioContext true 44100 (fun _ => 1/2) initialState) ∧
    (stopBackgroundMusic
      (initAudioContext true 44100 (fun _ => 1/2) initialState)).registry =
        [] :=
  ⟨by decide, (C1_stop_silences_generators _ (by decide)).2.2.2.1⟩

set_option maxHeartbeats 1600000 in
/-- C2: the melodic cursor update clamps (never wraps): for every scale
length ≥ 1 the advanced index stays in `[0, len − 1]` for any direction
and step, any sequence of advances starting from 0 stays in range,
repeatedly advancing with direction +1 and step 2 from index 0 yields
`min (2 n) (len − 1)` — hence saturates at `len − 1` after at most `len`
advances and remains there — and one melody tick keeps the engine cursor
within `[0, 6]` for the 7-note phrygian scale. -/
theorem C2_cursor_clamp (len : ℕ) (h : 1 ≤ len) :
    (∀ idx direction step, advanceCursor len idx direction step ≤ len - 1) ∧
    (∀ ops : List (ℤ × ℕ),
      ops.foldl (fun i op => advanceCursor len i op.1 op.2) 0 ≤ len - 1) ∧
    (∀ n, (fun i => advanceCursor len i 1 2)^[n] 0 = min (2 * n) (len - 1)) ∧
    (∀ n, len ≤ n → (fun i => advanceCursor len i 1 2)^[n] 0 = len - 1) ∧
    (∀ s rand, s.lastNoteIndex ≤ 6 →
      (playMelodyNote rand s).lastNoteIndex ≤ 6) := by
  have key : ∀ idx direction step,
      advanceCursor len idx direction step ≤ len - 1 := by
    intro idx direction step
    unfold advanceCursor
    omega
  have iter : ∀ n,
      (fun i => advanceCursor len i 1 2)^[n] 0 = min (2 * n) (len - 1) := by
    intro n
    induction n with
    | zero => simp
    | succ n ih =>
      rw [Function.iterate_succ_apply', ih]
      unfold advanceCursor
      omega
  have key7 : ∀ idx direction step,
      advanceCursor 7 idx direction step ≤ 6 := by
    intro idx direction step
    unfold advanceCursor
    omega
  refine ⟨key, ?_, iter, ?_, ?_⟩
  · intro ops
    suffices hgen : ∀ (ops : List (ℤ × ℕ)) i, i ≤ len - 1 →
        ops.foldl (fun i op => advanceCursor len i op.1 op.2) i ≤ len - 1 by
      exact hgen ops 0 (by omega)
    intro ops
    induction ops with
    | nil =>
      intro i hi
      simpa using hi
    | cons op ops ih =>
      intro i hi
      rw [List.foldl_cons]
      exact ih _ (key _ _ _)
  · intro n hn
    rw [iter n]
    omega
  · intro s rand hle
    simp only [playMelodyNote, drawRand]
    split
    · exact hle
    all_goals repeat' split
    all_goals simp only [playNote_lastNoteIndex]
    all_goals exact key7 _ _ _

/-- C2 witness: with the 7-note scale, 100 consecutive advances with
direction +1 and step 2 from index 0 saturate at index 6 = 7 − 1. -/
theorem C2_cursor_clamp_witness :
    1 ≤ 7 ∧ (fun i => advanceCursor 7 i 1 2)^[100] 0 = 7 - 1 :=
  ⟨by norm_num, (C2_cursor_clamp 7 (by norm_num)).2.2.2.1 100 (by norm_num)⟩

/-- C3: when the output device cannot be constructed,
`initAudioContext` absorbs the failure and leaves the state unchanged
(no exception escapes: the function is total and returns the state), and
in the resulting permanently-disabled state — detected by the absence of
the audio context, not by catching per-call failures — `start`, the
hover and click cues, `playNote` and `playFilteredNoise` are exact
no-ops, and `stop` performs zero device calls (trace unchanged) and
leaves the engine disabled. -/
theorem C3_disabled_noop (sr : ℚ) (rand rand₂ : ℕ → ℚ) (s : AudioState)
    (h : s.audioContext = false) :
    initAudioContext false sr rand s = s ∧
    startBackgroundMusic rand₂ s = s ∧
    (stopBackgroundMusic s).trace = s.trace ∧
    (stopBackgroundMusic s).audioContext = false ∧
    playHover s = s ∧
    playClick s = s ∧
    (∀ f d w v dst, playNote s f d w v dst = s) ∧
    (∀ d c v dst, playFilteredNoise s d c v dst = s) := by
  refine ⟨?_, startBackgroundMusic_of_guard s rand₂ (Or.inr h),
    stopBackgroundMusic_trace s, ?_, ?_, ?_, ?_, ?_⟩
  · simp [initAudioContext, h]
  · rw [stopBackgroundMusic_audioContext s, h]
  · simp [playHover, playNote, h]
  · simp [playClick, playNote, h]
  · intro f d w v dst
    simp [playNote, h]
  · intro d c v dst
    simp [playFilteredNoise, h]

/-- C3 witness: the constructor state has no audio context, and a failed
initialization from it is the identity. -/
theorem C3_disabled_noop_witness :
    initialState.audioContext = false ∧
    initAudioContext false 44100 (fun _ => 0) initialState = initialState :=
  ⟨rfl, (C3_disabled_noop 44100 (fun _ => 0) (fun _ => 0) initialState rfl).1⟩

/-- C4: `startBackgroundMusic` is idempotent — invoking it while music
is already playing is a no-op, so two consecutive invocations produce
exactly the same state (same running generators, same recorded handles)
as a single invocation. -/
theorem C4_start_idempotent (rand rand₂ : ℕ → ℚ) (s : AudioState) :
    startBackgroundMusic rand₂ (startBackgroundMusic rand s) =
      startBackgroundMusic rand s := by
  by_cases hg : s.isMusicPlaying = true ∨ s.audioContext = false
  · rw [startBackgroundMusic_of_guard s rand hg,
      startBackgroundMusic_of_guard s rand₂ hg]
  · push_neg at hg
    obtain ⟨h1, h2⟩ := hg
    have h1f : s.isMusicPlaying = false := by
      cases hb : s.isMusicPlaying
      · rfl
      · exact absurd hb h1
    have h2t : s.audioContext = true := by
      cases hb : s.audioContext
      · exact absurd hb h2
      · rfl
    exact startBackgroundMusic_of_guard _ rand₂
      (Or.inl (startBackgroundMusic_isMusicPlaying_of_started s rand h1f h2t))

/-- C5: every `playNote` call on an initialized engine creates exactly one
voice whose envelope gain starts at the peak gain at onset and ramps
exponentially to 0.001 at onset + duration, and whose oscillator stop is
scheduled exactly at onset + duration. -/
theorem C5_note_envelope (s : AudioState) (f : FreqExpr) (d v : ℚ)
    (w : Waveform) (dst : Option GNode) (h : s.audioContext = true) :
    playNote s f d w v dst = pushEvent
      { source := .oscillator w f
        onset := s.now
        gainAtOnset := v
        ramp := .expTo 0.001 (s.now + d)
        filterCutoff := none
        freqRamp := none
        stopTime := some (s.now + d)
        dest := dst.getD .master } s := by
  simp [playNote, h]

/-- C5 witness: a concrete note on an enabled engine. -/
theorem C5_note_envelope_witness :
    ({ initialState with audioContext := true } : AudioState).audioContext
      = true ∧
    playNote { initialState with audioContext := true } (.const 440) 2
      .sine 0.1 none = pushEvent
      { source := .oscillator .sine (.const 440)
        onset := 0
        gainAtOnset := 0.1
        ramp := .expTo 0.001 (0 + 2)
        filterCutoff := none
        freqRamp := none
        stopTime := some (0 + 2)
        dest := .master } { initialState with audioContext := true } :=
  ⟨rfl, C5_note_envelope _ _ _ _ _ _ rfl⟩

set_option maxHeartbeats 1600000 in
/-- C6: on a melody tick (music playing, engine enabled), a harmony note
is played exactly when the dedicated random draw exceeds 0.6 — which
happens with probability 0.4 for a uniform draw in [0, 1) — at scale
degree `(cursorIndex + 2) % scaleLength` of the phrygian scale (modulo
wraparound, not clamping: 6 + 2 wraps to 1 while the cursor advance
clamps 6 + 2 to 6), in the same octave, with sine waveform, 1.5 s
duration (shorter than the main note's 2–4 s), gain 0.02 (lower than the
main note's 0.03), on the music bus. -/
theorem C6_harmony_note (s : AudioState) (rand : ℕ → ℚ)
    (hp : s.isMusicPlaying = true) (hc : s.audioContext = true)
    (h0 : 0 ≤ rand (s.randIdx + 3)) (h1 : rand (s.randIdx + 3) < 1) :
    ∃ idx octave dur,
      idx = (playMelodyNote rand s).lastNoteIndex ∧
      2 ≤ dur ∧ dur < 4 ∧ (3:ℚ)/2 < dur ∧ ((0.02 : ℚ) < 0.03) ∧
      ((0.6 : ℚ) < rand (s.randIdx + 4) →
        (playMelodyNote rand s).trace = s.trace ++
          [ { source := .oscillator .triangle
                (.pitch octave (scales.phrygian.getD idx 0)),
              onset := s.now, gainAtOnset := 0.03,
              ramp := .expTo 0.001 (s.now + dur), filterCutoff := none,
              freqRamp := none, stopTime := some (s.now + dur),
              dest := .music },
            { source := .oscillator .sine
                (.pitch octave (scales.phrygian.getD
                  ((idx + 2) % scales.phrygian.length) 0)),
              onset := s.now, gainAtOnset := 0.02,
              ramp := .expTo 0.001 (s.now + 1.5), filterCutoff := none,
              freqRamp := none, stopTime := some (s.now + 1.5),
              dest := .music } ]) ∧
      (¬ (0.6 : ℚ) < rand (s.randIdx + 4) →
        (playMelodyNote rand s).trace = s.trace ++
          [ { source := .oscillator .triangle
                (.pitch octave (scales.phrygian.getD idx 0)),
              onset := s.now, gainAtOnset := 0.03,
              ramp := .expTo 0.001 (s.now + dur), filterCutoff := none,
              freqRamp := none, stopTime := some (s.now + dur),
              dest := .music } ]) ∧
      ((6 + 2) % scales.phrygian.length = 1 ∧
        advanceCursor scales.phrygian.length 6 1 2 = 6) := by
  have hgF : ¬ (s.isMusicPlaying = false) := by simp [hp]
  have e2 : s.randIdx + 1 + 1 = s.randIdx + 2 := rfl
  have e3 : s.randIdx + 1 + 1 + 1 = s.randIdx + 3 := rfl
  have e4 : s.randIdx + 1 + 1 + 1 + 1 = s.randIdx + 4 := rfl
  refine ⟨advanceCursor scales.phrygian.length s.lastNoteIndex
      (if (0.5:ℚ) < rand s.randIdx then 1 else -1)
      (Int.floor (rand (s.randIdx + 1) * 3)).toNat,
    2 + (Int.floor (rand (s.randIdx + 2) * 2)).toNat,
    2 + rand (s.randIdx + 3) * 2,
    ?_, by nlinarith, by nlinarith, by nlinarith, by norm_num,
    ?_, ?_, by decide⟩
  · simp only [playMelodyNote, drawRand, e2, e3, e4]
    rw [if_neg hgF]
    repeat' split
    all_goals simp only [playNote_lastNoteIndex]
  · intro hg
    simp only [playMelodyNote, drawRand, e2, e3, e4, playNote_randIdx]
    rw [if_neg hgF, if_pos hg]
    simp only [playNote_trace_ok, playNote_audioContext, playNote_now, hc,
      List.append_assoc, List.cons_append, List.nil_append,
      Option.getD_some]
  · intro hg
    simp only [playMelodyNote, drawRand, e2, e3, e4, playNote_randIdx]
    rw [if_neg hgF, if_neg hg]
    simp only [playNote_trace_ok, playNote_audioContext, playNote_now, hc,
      List.append_assoc, List.cons_append, List.nil_append,
      Option.getD_some]

/-- C6 witness: a concrete playing engine with the constant stream 7/10
(which passes the 0.6 harmony gate), plus the wraparound-versus-clamp
contrast at index 6. -/
theorem C6_harmony_note_witness :
    ({ initialState with audioContext := true, isMusicPlaying := true } :
      AudioState).isMusicPlaying = true ∧
    ({ initialState with audioContext := true, isMusicPlaying := true } :
      AudioState).audioContext = true ∧
    (0 : ℚ) ≤ 7/10 ∧ (7 : ℚ)/10 < 1 ∧
    ((6 + 2) % scales.phrygian.length = 1 ∧
      advanceCursor scales.phrygian.length 6 1 2 = 6) := by
  refine ⟨rfl, rfl, by norm_num, by norm_num, ?_⟩
  obtain ⟨idx, octave, dur, h⟩ := C6_harmony_note
    { initialState with audioContext := true, isMusicPlaying := true }
    (fun _ => (7:ℚ)/10) rfl rfl (by norm_num) (by norm_num)
  exact h.2.2.2.2.2.2.2

/-- C7: a successful initialization from the constructor state
immediately emits one drone chord of exactly four concurrent events —
the fundamental at 73.42 Hz (sine, gain 0.04), the perfect fifth at
base × 1.5 (sine, gain 0.025), the octave at base × 2 (triangle, gain
0.015), and one 8 s noise layer with 100 Hz cutoff — all at time 0
(within the first 7.5 s), registers the drone interval with period
7500 ms which fires on every later multiple of the period, and each
layer lasts 8 s = 8000 ms > 7500 ms, so consecutive chords overlap. -/
theorem C7_drone_chord (sr : ℚ) (rand : ℕ → ℚ) :
    (initAudioContext true sr rand initialState).trace =
      [ { source := .oscillator .sine (.const baseFreq), onset := 0,
          gainAtOnset := 0.04, ramp := .expTo 0.001 (0 + 8),
          filterCutoff := none, freqRamp := none, stopTime := some (0 + 8),
          dest := .music },
        { source := .oscillator .sine (.const (baseFreq * 1.5)), onset := 0,
          gainAtOnset := 0.025, ramp := .expTo 0.001 (0 + 8),
          filterCutoff := none, freqRamp := none, stopTime := some (0 + 8),
          dest := .music },
        { source := .oscillator .triangle (.const (baseFreq * 2)),
          onset := 0, gainAtOnset := 0.015, ramp := .expTo 0.001 (0 + 8),
          filterCutoff := none, freqRamp := none, stopTime := some (0 + 8),
          dest := .music },
        { source := .noiseBuffer (sr * 8) false, onset := 0,
          gainAtOnset := 0.02, ramp := .linTo 0 (0 + 8),
          filterCutoff := some 100, freqRamp := none, stopTime := none,
          dest := .music } ] ∧
    (⟨0, 7500, .drone, 0⟩ : IntervalRec) ∈
      (initAudioContext true sr rand initialState).registry ∧
    (8 : ℚ) * 1000 > 7500 ∧
    (∀ k : ℕ, 1 ≤ k →
      Fires (initAudioContext true sr rand initialState)
        ⟨0, 7500, .drone, 0⟩ (0 + k * 7500)) := by
  refine ⟨rfl, ?_, by norm_num, ?_⟩
  · exact List.Mem.head _
  · intro k hk
    exact ⟨List.Mem.head _, k, hk, rfl⟩

/-- C8: initialization builds the three-stage gain chain
per-event gain → bus gain → master gain → output, so for every
configuration with volumes in [0, 1] and every peak gain in [0, 1] the
effective output gain of a voice routed to the music (resp. sfx) bus is
exactly peakGain × busGain × masterGain; the constructor defaults are
master 0.4, music 0.15, sfx 0.3. -/
theorem C8_gain_product (c : MixBusConfig) (p sr : ℚ) (rand : ℕ → ℚ)
    (hp : 0 ≤ p ∧ p ≤ 1)
    (hma : 0 ≤ c.masterVolume ∧ c.masterVolume ≤ 1)
    (hmu : 0 ≤ c.musicVolume ∧ c.musicVolume ≤ 1)
    (hsf : 0 ≤ c.sfxVolume ∧ c.sfxVolume ≤ 1) :
    effectiveOutputGain
        (initAudioContext true sr rand { initialState with config := c })
        p .music = p * c.musicVolume * c.masterVolume ∧
    effectiveOutputGain
        (initAudioContext true sr rand { initialState with config := c })
        p .sfx = p * c.sfxVolume * c.masterVolume ∧
    initialState.config =
      { masterVolume := 0.4, musicVolume := 0.15, sfxVolume := 0.3 } := by
  obtain ⟨hcn, hm, hmus, hs⟩ :=
    initAudioContext_ok_fields { initialState with config := c } rand sr rfl
  have hcn' : (initAudioContext true sr rand
      { initialState with config := c }).connections =
      [(GNode.master, GNode.output), (GNode.music, GNode.master),
        (GNode.sfx, GNode.master)] := by
    rw [hcn]
    rfl
  obtain ⟨g1, g2⟩ := chainGain_of_std_connections _ hcn'
  have em : ({ initialState with config := c } :
      AudioState).config.masterVolume = c.masterVolume := rfl
  have emu : ({ initialState with config := c } :
      AudioState).config.musicVolume = c.musicVolume := rfl
  have es : ({ initialState with config := c } :
      AudioState).config.sfxVolume = c.sfxVolume := rfl
  refine ⟨?_, ?_, rfl⟩
  · rw [effectiveOutputGain, g1, hmus, hm, emu, em]
    ring
  · rw [effectiveOutputGain, g2, hs, hm, es, em]
    ring

/-- C8 witness: the default configuration and peak gain 1/2. -/
theorem C8_gain_product_witness :
    ((0:ℚ) ≤ 1/2 ∧ (1:ℚ)/2 ≤ 1) ∧
    ((0:ℚ) ≤ 0.4 ∧ (0.4:ℚ) ≤ 1) ∧
    ((0:ℚ) ≤ 0.15 ∧ (0.15:ℚ) ≤ 1) ∧
    ((0:ℚ) ≤ 0.3 ∧ (0.3:ℚ) ≤ 1) ∧
    effectiveOutputGain
      (initAudioContext true 44100 (fun _ => 0)
        { initialState with config :=
          { masterVolume := 0.4, musicVolume := 0.15, sfxVolume := 0.3 } })
      (1/2) .music = 1/2 *
        ({ masterVolume := 0.4, musicVolume := 0.15, sfxVolume := 0.3 } :
          MixBusConfig).musicVolume *
        ({ masterVolume := 0.4, musicVolume := 0.15, sfxVolume := 0.3 } :
          MixBusConfig).masterVolume := by
  refine ⟨by norm_num, by norm_num, by norm_num, by norm_num, ?_⟩
  exact (C8_gain_product
    { masterVolume := 0.4, musicVolume := 0.15, sfxVolume := 0.3 }
    (1/2) 44100 (fun _ => 0) (by norm_num) (by norm_num) (by norm_num)
    (by norm_num)).1

/-- C9: every voice self-terminates within its bounded duration without a
caller-retained handle: a `playNote` voice carries an explicit stop
scheduled at onset + duration, while a `playFilteredNoise` voice
schedules no stop at all — it is a non-looping buffer source holding
exactly duration × sampleRate samples, so it ends when the buffer is
exhausted. -/
theorem C9_self_termination (s : AudioState) (h : s.audioContext = true) :
    (∀ f d w v dst, (playNote s f d w v dst).trace = s.trace ++
      [{ source := .oscillator w f
         onset := s.now
         gainAtOnset := v
         ramp := .expTo 0.001 (s.now + d)
         filterCutoff := none
         freqRamp := none
         stopTime := some (s.now + d)
         dest := dst.getD .master }]) ∧
    (∀ d c v dst, (playFilteredNoise s d c v dst).trace = s.trace ++
      [{ source := .noiseBuffer (s.sampleRate * d) false
         onset := s.now
         gainAtOnset := v
         ramp := .linTo 0 (s.now + d)
         filterCutoff := some c
         freqRamp := none
         stopTime := none
         dest := dst.getD .master }]) := by
  constructor
  · intro f d w v dst
    simp [playNote, h]
  · intro d c v dst
    simp [playFilteredNoise, h]

/-- C9 witness: the drone noise layer on an enabled engine carries no
stop time and a non-looping buffer. -/
theorem C9_self_termination_witness :
    ({ initialState with audioContext := true } : AudioState).audioContext
      = true ∧
    (playFilteredNoise { initialState with audioContext := true } 8 100
      0.02 (some .music)).trace = [] ++
      [{ source := .noiseBuffer (0 * 8) false
         onset := 0
         gainAtOnset := 0.02
         ramp := .linTo 0 (0 + 8)
         filterCutoff := some 100
         freqRamp := none
         stopTime := none
         dest := .music }] :=
  ⟨rfl, (C9_self_termination _ rfl).2 8 100 0.02 (some .music)⟩

/-- C10: the melody period is drawn exactly once, at `startMelody`: the
registered melody interval has the fixed period 3000 + r × 4000 ms
where r is the single random draw (hence in [3000, 7000) for r in
[0, 1)), and running any later tick of any generator never modifies the
registry — the period is never re-drawn. -/
theorem C10_melody_period_fixed (s : AudioState) (rand : ℕ → ℚ)
    (h : s.audioContext = true) (h0 : 0 ≤ rand s.randIdx)
    (h1 : rand s.randIdx < 1) :
    (startMelody rand s).registry = s.registry ++
      [⟨s.nextId, 3000 + rand s.randIdx * 4000, .melody, s.now⟩] ∧
    (startMelody rand s).musicInterval = some s.nextId ∧
    3000 ≤ 3000 + rand s.randIdx * 4000 ∧
    3000 + rand s.randIdx * 4000 < 7000 ∧
    (∀ rand₂ task t,
      (runTick rand₂ task t (startMelody rand s)).registry =
        (startMelody rand s).registry) := by
  have hg : ¬ (s.audioContext = false) := by simp [h]
  refine ⟨?_, ?_, by nlinarith, by nlinarith,
    fun rand₂ task t => runTick_registry _ rand₂ task t⟩
  · unfold startMelody
    rw [if_neg hg]
    rfl
  · unfold startMelody
    rw [if_neg hg]
    rfl

/-- C10 witness: a concrete enabled engine and the stream constantly
1/2. -/
theorem C10_melody_period_fixed_witness :
    ({ initialState with audioContext := true } : AudioState).audioContext
      = true ∧
    (0 : ℚ) ≤ 1/2 ∧ (1 : ℚ)/2 < 1 ∧
    (startMelody (fun _ => (1:ℚ)/2)
      { initialState with audioContext := true }).musicInterval = some 0 :=
  ⟨rfl, by norm_num, by norm_num,
    (C10_melody_period_fixed _ _ rfl (by norm_num) (by norm_num)).2.1⟩

end WerewolfAudio
